import Mathlib

/-!
Verification of the EXL MVP AI Revenue Leakage Detector core
(invoice ingestion, risk scoring, persistence, vendor statistics,
narrative synthesis) against its natural-language specification.

The Python source is shallowly embedded: pure functions become Lean
functions, the SQLAlchemy session becomes explicit state passing,
Python floats become rationals, fallible code returns `Except`.
-/

namespace RevLeak

/-! ## Calendar dates (`datetime.date`)

`datetime.date` is modelled as a year/month/day triple.  `weekday`
follows Python's convention (Monday = 0 … Sunday = 6) and is computed
via the standard days-from-civil-epoch algorithm. -/

structure Date where
  year : Int
  month : Nat
  day : Nat
deriving DecidableEq, Repr

/-- Days since 1970-01-01 (civil calendar), Howard Hinnant's algorithm. -/
def Date.toDays (dt : Date) : Int :=
  let y : Int := dt.year - (if dt.month ≤ 2 then 1 else 0)
  let era : Int := (if 0 ≤ y then y else y - 399) / 400
  let yoe : Int := y - era * 400
  let doy : Int := (153 * ((dt.month : Int) + (if 2 < dt.month then -3 else 9)) + 2) / 5
                   + (dt.day : Int) - 1
  let doe : Int := yoe * 365 + yoe / 4 - yoe / 100 + doy
  era * 146097 + doe - 719468

/-- `date.weekday()`: Monday = 0 … Sunday = 6.  1970-01-01 was a Thursday (3). -/
def Date.weekday (dt : Date) : Int :=
  (dt.toDays + 3) % 7

/-! ## Substring test (Python's `in` operator on strings) -/

/-- `needle.isPrefixOf hay` on character lists, as a Boolean. -/
def isPrefixL : List Char → List Char → Bool
  | [], _ => true
  | _ :: _, [] => false
  | a :: as, b :: bs => a = b && isPrefixL as bs

/-- `needle in hay` for Python strings (character lists). -/
def containsSub (hay needle : List Char) : Bool :=
  match hay with
  | [] => needle.isEmpty
  | _ :: rest => isPrefixL needle hay || containsSub rest needle

/-- Python's `str.lower()` as a character-list map (the vendor names the
code compares are ASCII, where `Char.toLower` agrees with Python). -/
def pyLower (s : String) : List Char :=
  s.toList.map Char.toLower

/-! ## Risk engine (`risk_engine.calculate_risk`)

The input dictionary is embedded as a record.  `invoice_data.get(k)`
with a missing key yields the default, and the `invoice_date` value
may be absent or hold something that is not a `datetime.date`
(the code guards with `isinstance(invoice_date, date)`). -/

/-- The value found under `'invoice_date'`: absent, present but not a
`datetime.date` instance, or an actual date. -/
inductive PyDateField where
  | absent
  | notADate (tag : String)
  | val (d : Date)
deriving DecidableEq, Repr

/-- The (validated) invoice-data dictionary fed to `calculate_risk`. -/
structure InvoiceData where
  total_amount : Option ℚ
  vendor_name : Option String
  invoice_date : PyDateField
deriving DecidableEq, Repr

/-- One XAI factor dictionary `{'feature_name': …, 'contribution': …}`. -/
structure XaiFactor where
  feature_name : String
  contribution : Int
deriving DecidableEq, Repr

/-- The tier thresholds at the end of `calculate_risk`:
`if risk_score <= 30: 'Low' elif 31 <= risk_score <= 60: 'Medium' else: 'High'`. -/
def risk_level_of (risk_score : Int) : String :=
  if risk_score ≤ 30 then "Low"
  else if 31 ≤ risk_score ∧ risk_score ≤ 60 then "Medium"
  else "High"

/-- Rule 1 condition: `invoice_data.get('total_amount', 0) > 10000`. -/
def amount_fires (invoice_data : InvoiceData) : Bool :=
  invoice_data.total_amount.getD 0 > 10000

/-- Rule 2 condition:
`'consulting' in vendor_name.lower() or 'services' in vendor_name.lower()`
where `vendor_name = invoice_data.get('vendor_name', '')`. -/
def vendor_fires (invoice_data : InvoiceData) : Bool :=
  let vn := pyLower (invoice_data.vendor_name.getD "")
  containsSub vn "consulting".toList || containsSub vn "services".toList

/-- Rule 3 condition:
`isinstance(invoice_date, date) and invoice_date.weekday() >= 5`. -/
def weekend_fires : PyDateField → Bool
  | .val d => d.weekday ≥ 5
  | _ => false

/-- `calculate_risk(invoice_data)`: three additive rules evaluated in a
fixed order, then the tier thresholds.  Returns
`(risk_score, risk_level, xai_factors)`. -/
def calculate_risk (invoice_data : InvoiceData) : Int × String × List XaiFactor :=
  let s1 : Int := if amount_fires invoice_data then 45 else 0
  let f1 : List XaiFactor :=
    if amount_fires invoice_data then [⟨"High Invoice Amount", 45⟩] else []
  let s2 : Int := if vendor_fires invoice_data then 30 else 0
  let f2 : List XaiFactor :=
    if vendor_fires invoice_data then [⟨"Vendor Type", 30⟩] else []
  let s3 : Int := if weekend_fires invoice_data.invoice_date then 20 else 0
  let f3 : List XaiFactor :=
    if weekend_fires invoice_data.invoice_date then [⟨"Weekend Transaction", 20⟩] else []
  let risk_score := s1 + s2 + s3
  (risk_score, risk_level_of risk_score, f1 ++ f2 ++ f3)

/-! ## Narrative service: variance guard (`narrative_service.py`, line 148)

`variance_pct = ((invoice.amount - avg_amount) / avg_amount * 100) if avg_amount > 0 else 0` -/

def variance_pct (amount avg_amount : ℚ) : ℚ :=
  if avg_amount > 0 then (amount - avg_amount) / avg_amount * 100 else 0

/-! ## Date normalization (`ingestion.py`, lines 81-92)

`datetime.strptime` restricted to the four formats the code tries:
`'%Y-%m-%d'`, `'%d-%m-%Y'`, `'%m-%d-%Y'`, `'%b %d, %Y'`.  CPython compiles
`%Y` to the regex `\d{1,4}`, `%m`/`%d` to `\d{1,2}`, `%b` to the
case-insensitive month abbreviations, whitespace in the format to `\s+`,
demands the whole string be consumed, and finally validates the triple by
constructing `datetime.date` (month 1-12, day within the month,
year 1-9999). -/

/-- Python's `\s` on the ASCII range: `' '`, `\t`, `\n`, `\r`, `\x0b`, `\x0c`. -/
def pyIsSpace (c : Char) : Bool :=
  c = ' ' || c = '\t' || c = '\n' || c = '\r' || c = '\x0b' || c = '\x0c'

/-- Take up to `n` leading decimal digits (the greedy `\d{1,n}`). -/
def takeDigits : Nat → List Char → List Char × List Char
  | 0, cs => ([], cs)
  | _ + 1, [] => ([], [])
  | n + 1, c :: cs =>
    if c.isDigit then
      let (ds, rest) := takeDigits n cs
      (c :: ds, rest)
    else ([], c :: cs)

def digitsVal (ds : List Char) : Nat :=
  ds.foldl (fun a c => a * 10 + (c.toNat - 48)) 0

/-- Parse 1 to `maxLen` digits greedily; `none` when no digit is present. -/
def parseNum (maxLen : Nat) (cs : List Char) : Option (Nat × List Char) :=
  match takeDigits maxLen cs with
  | ([], _) => none
  | (ds, rest) => some (digitsVal ds, rest)

def expectChar (c : Char) : List Char → Option (List Char)
  | x :: xs => if x = c then some xs else none
  | [] => none

/-- One-or-more whitespace (CPython's strptime compiles format whitespace to `\s+`). -/
def expectSpaces : List Char → Option (List Char)
  | x :: xs => if pyIsSpace x then some (xs.dropWhile pyIsSpace) else none
  | [] => none

def isLeapYear (y : Nat) : Bool :=
  y % 4 = 0 && (y % 100 ≠ 0 || y % 400 = 0)

def daysInMonth (y m : Nat) : Nat :=
  if m = 2 then (if isLeapYear y then 29 else 28)
  else if m = 4 || m = 6 || m = 9 || m = 11 then 30
  else 31

/-- `datetime.date(y, m, d)`: `none` when the constructor would raise. -/
def mkValidDate (y m d : Nat) : Option Date :=
  if 1 ≤ y && y ≤ 9999 && 1 ≤ m && m ≤ 12 && 1 ≤ d && d ≤ daysInMonth y m then
    some ⟨(y : Int), m, d⟩
  else none

/-- `%b`: the C-locale month abbreviations, matched case-insensitively. -/
def monthAbbrevs : List (List Char) :=
  ["jan", "feb", "mar", "apr", "may", "jun",
   "jul", "aug", "sep", "oct", "nov", "dec"].map String.toList

def parseMonthAbbrev (cs : List Char) : Option (Nat × List Char) :=
  match cs with
  | a :: b :: c :: rest =>
    match monthAbbrevs.indexOf? [a.toLower, b.toLower, c.toLower] with
    | some idx => some (idx + 1, rest)
    | none => none
  | _ => none

/-- `datetime.strptime(s, '%Y-%m-%d')`. -/
def parse_Ymd (s : String) : Option Date := do
  let cs := s.toList
  let (y, cs) ← parseNum 4 cs
  let cs ← expectChar '-' cs
  let (m, cs) ← parseNum 2 cs
  let cs ← expectChar '-' cs
  let (d, cs) ← parseNum 2 cs
  if cs.isEmpty then mkValidDate y m d else none

/-- `datetime.strptime(s, '%d-%m-%Y')`. -/
def parse_dmY (s : String) : Option Date := do
  let cs := s.toList
  let (d, cs) ← parseNum 2 cs
  let cs ← expectChar '-' cs
  let (m, cs) ← parseNum 2 cs
  let cs ← expectChar '-' cs
  let (y, cs) ← parseNum 4 cs
  if cs.isEmpty then mkValidDate y m d else none

/-- `datetime.strptime(s, '%m-%d-%Y')`. -/
def parse_mdY (s : String) : Option Date := do
  let cs := s.toList
  let (m, cs) ← parseNum 2 cs
  let cs ← expectChar '-' cs
  let (d, cs) ← parseNum 2 cs
  let cs ← expectChar '-' cs
  let (y, cs) ← parseNum 4 cs
  if cs.isEmpty then mkValidDate y m d else none

/-- `datetime.strptime(s, '%b %d, %Y')`. -/
def parse_bdY (s : String) : Option Date := do
  let cs := s.toList
  let (m, cs) ← parseMonthAbbrev cs
  let cs ← expectSpaces cs
  let (d, cs) ← parseNum 2 cs
  let cs ← expectChar ',' cs
  let cs ← expectSpaces cs
  let (y, cs) ← parseNum 4 cs
  if cs.isEmpty then mkValidDate y m d else none

/-- Lines 81-92 of `ingest_invoice_pdf`: try each format in the fixed
priority order `['%Y-%m-%d', '%d-%m-%Y', '%m-%d-%Y', '%b %d, %Y']` and stop
on the first successful parse. -/
def normalize_invoice_date (s : String) : Option Date :=
  (parse_Ymd s).orElse fun _ =>
    (parse_dmY s).orElse fun _ =>
      (parse_mdY s).orElse fun _ =>
        parse_bdY s

/-! ## Ingestion: text extraction (`ingestion.py`, lines 14-26) -/

/-- Python's `str.strip()` on a character list. -/
def pyStrip (cs : List Char) : List Char :=
  ((cs.dropWhile pyIsSpace).reverse.dropWhile pyIsSpace).reverse

/-- The message of the `InvoiceValidationError` raised at line 22 when the
extracted text is empty or whitespace-only (the spec's `EmptyDocument` kind). -/
def emptyDocMessage : String := "PDF is empty or contains no extractable text."

/-- `raw_text`: concatenation of `page.extract_text() or ""` over the pages
(`extract_text()` may return `None`). -/
def extractRawText (pages : List (Option String)) : String :=
  pages.foldl (fun acc p => acc ++ p.getD "") ""

/-- Lines 14-26 of `ingest_invoice_pdf`: the pdfplumber extraction step with
its surrounding `try/except`.  `openResult` is the outcome of
`pdfplumber.open` plus page iteration: an exception message, or the pages'
texts.  The `except Exception as e` clause wraps ANY exception raised in the
try body — including the `InvoiceValidationError(emptyDocMessage)` the body
itself raises for empty text — into
`InvoiceValidationError(f"Could not process PDF file stream: {e}")`. -/
def ingest_extract_step (openResult : Except String (List (Option String))) :
    Except String String :=
  match openResult with
  | .error e => .error ("Could not process PDF file stream: " ++ e)
  | .ok pages =>
    let raw := extractRawText pages
    if (pyStrip raw.toList).isEmpty then
      .error ("Could not process PDF file stream: " ++ emptyDocMessage)
    else .ok raw

/-! ## Invoice store (`models.py` and `database_ops.py`)

The relational store is embedded as two row lists; the SQLAlchemy session
as committed state plus staged, uncommitted units of work. -/

/-- One row of the `invoice` table. -/
structure InvoiceRow where
  id : Int
  vendor_name : String
  amount : ℚ
  invoice_date : Date
  processing_status : String
  risk_score : Option ℚ
  risk_level : Option String
  original_filename : Option String
deriving DecidableEq, Repr

/-- One row of the `risk_factor` table (the foreign key made explicit). -/
structure RiskFactorRow where
  feature_name : String
  contribution : ℚ
  invoice_id : Int
deriving DecidableEq, Repr

/-- The visible (committed) database state. -/
structure DBState where
  invoices : List InvoiceRow
  risk_factors : List RiskFactorRow
deriving DecidableEq, Repr

/-- A staged unit of work: `Invoice(**invoice_data)` with its appended
`RiskFactor(**rf_data)` children (`new_invoice.risk_factors.append(...)`). -/
structure PendingAdd where
  invoice : InvoiceRow
  factors : List XaiFactor
deriving DecidableEq, Repr

/-- The SQLAlchemy session: committed state plus staged units. -/
structure Session where
  committed : DBState
  pending : List PendingAdd
deriving DecidableEq, Repr

/-- Writing one staged unit: the invoice row and all its risk-factor rows
enter the two tables together. -/
def applyAdd (st : DBState) (p : PendingAdd) : DBState :=
  { invoices := st.invoices ++ [p.invoice],
    risk_factors := st.risk_factors ++
      p.factors.map (fun f => ⟨f.feature_name, (f.contribution : ℚ), p.invoice.id⟩) }

/-- `db.session.add(new_invoice)`: stages the unit, mutating nothing visible. -/
def Session.add (s : Session) (p : PendingAdd) : Session :=
  { s with pending := s.pending ++ [p] }

/-- `db.session.commit()`: applies every staged unit atomically, or raises
the injected fault leaving the staged units unapplied. -/
def Session.commit (s : Session) (fault : Option String) : Except String Session :=
  match fault with
  | some e => .error e
  | none => .ok { committed := s.pending.foldl applyAdd s.committed, pending := [] }

/-- `db.session.rollback()`: discards every staged, uncommitted unit. -/
def Session.rollback (s : Session) : Session :=
  { s with pending := [] }

/-- `add_invoice_with_risk_factors(invoice_data, risk_factors_data)` with a
fault injectable at the commit (the only state-mutating step): build the
invoice with its factors, stage it, commit; on any failure roll back and
re-raise the original error.  Returns the outcome and the session after. -/
def add_invoice_with_risk_factors (s : Session) (invoice_data : InvoiceRow)
    (risk_factors_data : List XaiFactor) (fault : Option String) :
    Except String InvoiceRow × Session :=
  let staged := s.add ⟨invoice_data, risk_factors_data⟩
  match staged.commit fault with
  | .ok s' => (.ok invoice_data, s')
  | .error e => (.error e, staged.rollback)

/-! ## `get_all_invoices(risk_level=None, sort_by_date=None)` -/

/-- `ORDER BY invoice_date ASC` comparator. -/
def dateAscLe (a b : InvoiceRow) : Bool :=
  a.invoice_date.toDays ≤ b.invoice_date.toDays

/-- `ORDER BY invoice_date DESC` comparator. -/
def dateDescLe (a b : InvoiceRow) : Bool :=
  b.invoice_date.toDays ≤ a.invoice_date.toDays

def insertSorted (le : InvoiceRow → InvoiceRow → Bool) (x : InvoiceRow) :
    List InvoiceRow → List InvoiceRow
  | [] => [x]
  | y :: ys => if le x y then x :: y :: ys else y :: insertSorted le x ys

/-- The sort the `order_by` clause performs. -/
def sortRows (le : InvoiceRow → InvoiceRow → Bool) : List InvoiceRow → List InvoiceRow
  | [] => []
  | x :: xs => insertSorted le x (sortRows le xs)

/-- The optional exact-match tier filter: `if risk_level:` is Python
truthiness, so `None` and the empty string both skip the filter. -/
def passes_filter (risk_level : Option String) (i : InvoiceRow) : Bool :=
  match risk_level with
  | some lv => if lv = "" then true else i.risk_level == some lv
  | none => true

/-- `subquery = db.session.query(Invoice.id).distinct().subquery()` followed
by `Invoice.query.join(subquery, Invoice.id == subquery.c.id)`: relational
join of the invoice table against its own distinct ids — one output row per
(invoice, matching subquery id) pair. -/
def join_distinct (invoices : List InvoiceRow) : List InvoiceRow :=
  let subquery := (invoices.map (·.id)).dedup
  invoices.flatMap (fun i => (subquery.filter (fun j => j == i.id)).map (fun _ => i))

/-- `if risk_level: query = query.filter(Invoice.risk_level == risk_level)`
(Python truthiness: `None` and `""` both skip the filter). -/
def tier_filter_clause (risk_level : Option String) (rows : List InvoiceRow) :
    List InvoiceRow :=
  match risk_level with
  | some lv => if lv = "" then rows else rows.filter (fun i => i.risk_level == some lv)
  | none => rows

/-- `if sort_by_date: query.order_by(desc/asc(Invoice.invoice_date))`
(Python truthiness again; `'desc'` compared case-insensitively). -/
def date_sort_clause (sort_by_date : Option String) (rows : List InvoiceRow) :
    List InvoiceRow :=
  match sort_by_date with
  | some sd =>
    if sd = "" then rows
    else if pyLower sd = "desc".toList then sortRows dateDescLe rows
    else sortRows dateAscLe rows
  | none => rows

/-- `get_all_invoices`: select distinct invoice ids as a subquery, join the
`invoice` table against it on id equality, then apply the optional tier
filter and the optional date sort. -/
def get_all_invoices (db : DBState) (risk_level : Option String)
    (sort_by_date : Option String) : List InvoiceRow :=
  date_sort_clause sort_by_date (tier_filter_clause risk_level (join_distinct db.invoices))

/-! ## `get_vendor_statistics(vendor_name, current_invoice_id=None)` -/

/-- SQL `AVG` over the selected amounts (`NULL` on an empty selection). -/
def sqlAvg (amounts : List ℚ) : Option ℚ :=
  match amounts with
  | [] => none
  | _ => some (amounts.sum / amounts.length)

/-- SQL `MAX` over the selected amounts (`NULL` on an empty selection). -/
def sqlMax (amounts : List ℚ) : Option ℚ :=
  match amounts with
  | [] => none
  | a :: rest => some (rest.foldl max a)

/-- `get_vendor_statistics`: filter the vendor's invoices, optionally filter
out `current_invoice_id` — but `if current_invoice_id:` is Python
truthiness, so `None` AND the id `0` both skip the exclusion — then return
`AVG` and `MAX` of the amounts with `stats[i] or 0.0` defaulting. -/
def get_vendor_statistics (db : DBState) (vendor_name : String)
    (current_invoice_id : Option Int) : ℚ × ℚ :=
  let rows := db.invoices.filter (fun i => i.vendor_name == vendor_name)
  let rows := match current_invoice_id with
    | some cid => if cid = 0 then rows else rows.filter (fun i => i.id != cid)
    | none => rows
  let amounts := rows.map (·.amount)
  ((sqlAvg amounts).getD 0, (sqlMax amounts).getD 0)

/-! ## Narrative synthesis (`narrative_service.py`) -/

/-- The characters `re.sub(r'[​-‍﻿]', '', ...)` removes. -/
def isZeroWidth (c : Char) : Bool :=
  (0x200B ≤ c.toNat && c.toNat ≤ 0x200D) || c.toNat = 0xFEFF

/-- `re.sub(r'(?<=\S)\n(?=\S)', '', text)`: delete each newline whose
neighbours are both non-whitespace; scanning resumes at the character after
the deleted newline, which serves as the next look-behind. -/
def mergeSplitNewlines : List Char → List Char
  | [] => []
  | a :: '\n' :: b :: rest' =>
    if !pyIsSpace a && !pyIsSpace b then a :: mergeSplitNewlines (b :: rest')
    else a :: mergeSplitNewlines ('\n' :: b :: rest')
  | a :: rest => a :: mergeSplitNewlines rest

/-- Collapse each maximal run of the character `c` to a single `c`
(`re.sub(r'\n+', '\n', ...)` and `re.sub(r'[ ]{2,}', ' ', ...)`). -/
def collapseChar (c : Char) : List Char → List Char
  | [] => []
  | [a] => [a]
  | a :: b :: rest =>
    if a = c && b = c then collapseChar c (b :: rest)
    else a :: collapseChar c (b :: rest)

/-- `clean_narrative_text(raw_text)`: the empty guard, then the four
sanitation passes, then `strip()`. -/
def clean_narrative_text (raw_text : String) : String :=
  if raw_text = "" then ""
  else
    let t := raw_text.toList.filter (fun c => !isZeroWidth c)
    let t := mergeSplitNewlines t
    let t := collapseChar '\n' t
    let t := collapseChar ' ' t
    ⟨pyStrip t⟩

/-- The dictionary `get_vendor_statistics` returns, as consumed through
`vendor_stats.get(...)`. -/
structure VendorStats where
  avg_amount : ℚ
  max_amount : ℚ
deriving DecidableEq, Repr

/-- The ORM invoice object `generate_narrative` receives: a persisted,
already-scored invoice together with its loaded risk factors. -/
structure OrmInvoice where
  id : Int
  vendor_name : String
  amount : ℚ
  invoice_date : Date
  risk_score : Option ℚ
  risk_level : Option String
  risk_factors : List RiskFactorRow
deriving DecidableEq, Repr

/-- The fixed degraded result of the `except` clause at the bottom of
`generate_narrative`. -/
def fallback_message (invoice : OrmInvoice) : String :=
  "Narrative generation failed due to an internal error. Please review invoice "
    ++ toString invoice.id ++ " manually."

/-- `generate_narrative(invoice, api_key)`.  The whole body sits in one
`try/except Exception` that degrades every failure to `fallback_message`.
The two fallible external calls are parameters: `vendor_stats_result` is
the outcome of `get_vendor_statistics(invoice.vendor_name, invoice.id)`
(first statement of the try body) and `model_result` the outcome of the
`litellm.completion` call.  The prompt assembled in between (persona,
vendor profile, `variance_pct`, risk context) flows only into the model
call and cannot itself raise, so it is not re-materialized here.  The
return type `String` with no error channel is the embedded form of
"never raises to the caller". -/
def generate_narrative (invoice : OrmInvoice)
    (vendor_stats_result : Except String VendorStats)
    (model_result : Except String String) : String :=
  match vendor_stats_result with
  | .error _ => fallback_message invoice
  | .ok _vendor_stats =>
    match model_result with
    | .error _ => fallback_message invoice
    | .ok content =>
      -- narrative = clean_narrative_text(narrative); empty is falsy
      let narrative := clean_narrative_text content
      if narrative ≠ "" then narrative
      else fallback_message invoice

/-! ## Sample rows for the concrete witnesses -/

def sampleInvoiceA : InvoiceRow :=
  ⟨1, "Acme Consulting", 15000, ⟨2024, 3, 16⟩, "Processed", some 95, some "High", none⟩

def sampleInvoiceB : InvoiceRow :=
  ⟨2, "Acme Consulting", 500, ⟨2024, 3, 12⟩, "Processed", some 30, some "Low", none⟩

def sampleDB : DBState :=
  ⟨[sampleInvoiceA, sampleInvoiceB],
   [⟨"High Invoice Amount", 45, 1⟩, ⟨"Vendor Type", 30, 1⟩, ⟨"Weekend Transaction", 20, 1⟩]⟩

/-- A store whose only invoice has primary key 0. -/
def vendorDB0 : DBState :=
  ⟨[⟨0, "Globex Services", 100, ⟨2024, 1, 5⟩, "Processed", some 30, some "Low", none⟩], []⟩

def sampleOrmInvoice : OrmInvoice :=
  ⟨1, "Acme Consulting", 15000, ⟨2024, 3, 16⟩, some 95, some "High",
   [⟨"High Invoice Amount", 45, 1⟩]⟩

end RevLeak

namespace RevLeak

/-- **C1.** For amount 15000, vendor "Acme Consulting" and any invoice date
falling on a Saturday (Python weekday 5), `calculate_risk` returns score 95,
tier `High`, and exactly the three factors
[High Invoice Amount 45, Vendor Type 30, Weekend Transaction 20] in that order. -/
theorem calculate_risk_saturday_acme (d : Date) (h : d.weekday = 5) :
    calculate_risk ⟨some 15000, some "Acme Consulting", .val d⟩ =
      (95, "High",
        [⟨"High Invoice Amount", 45⟩, ⟨"Vendor Type", 30⟩, ⟨"Weekend Transaction", 20⟩]) := by
  have hw : weekend_fires (.val d) = true := by
    simp [weekend_fires, h]
  have hA : amount_fires ⟨some 15000, some "Acme Consulting", .val d⟩ = true := by
    show decide ((some (15000 : ℚ)).getD 0 > 10000) = true
    decide
  have hV : vendor_fires ⟨some 15000, some "Acme Consulting", .val d⟩ = true := by
    show (containsSub (pyLower ((some "Acme Consulting").getD "")) "consulting".toList ||
          containsSub (pyLower ((some "Acme Consulting").getD "")) "services".toList) = true
    decide
  simp only [calculate_risk, hw, hA, hV]
  decide

/-- Witness for C1: 2024-03-16 is a Saturday and the theorem applies to it. -/
theorem calculate_risk_saturday_acme_witness :
    Date.weekday ⟨2024, 3, 16⟩ = 5 ∧
    calculate_risk ⟨some 15000, some "Acme Consulting", .val ⟨2024, 3, 16⟩⟩ =
      (95, "High",
        [⟨"High Invoice Amount", 45⟩, ⟨"Vendor Type", 30⟩, ⟨"Weekend Transaction", 20⟩]) :=
  ⟨by decide, calculate_risk_saturday_acme ⟨2024, 3, 16⟩ (by decide)⟩

/-- **C2.** The score-to-tier mapping is total and non-overlapping: every
integer score maps to exactly one tier — `Low` iff score ≤ 30, `Medium` iff
31 ≤ score ≤ 60, `High` iff score > 60 — and always to one of the three. -/
theorem risk_level_partition (s : Int) :
    (risk_level_of s = "Low" ↔ s ≤ 30) ∧
    (risk_level_of s = "Medium" ↔ 31 ≤ s ∧ s ≤ 60) ∧
    (risk_level_of s = "High" ↔ 60 < s) ∧
    (risk_level_of s = "Low" ∨ risk_level_of s = "Medium" ∨ risk_level_of s = "High") := by
  unfold risk_level_of
  split_ifs with h1 h2 <;>
    refine ⟨?_, ?_, ?_, ?_⟩ <;> simp_all <;> omega

/-- **C9.** The percentage-variance computation of the narrative service is
guarded: when the vendor's historical average is zero the variance is zero for
every invoice amount (the division branch is never taken). -/
theorem variance_pct_zero_avg (amount : ℚ) : variance_pct amount 0 = 0 := by
  unfold variance_pct
  norm_num

/-- **C10.** When the `invoice_date` field is missing or not a
`datetime.date` value, `calculate_risk` still returns normally: no
"Weekend Transaction" factor and no +20 contribution appear, while the
amount and vendor rules are still applied. -/
theorem calculate_risk_no_date (inv : InvoiceData)
    (h : inv.invoice_date = .absent ∨ ∃ t, inv.invoice_date = .notADate t) :
    calculate_risk inv =
      ((if amount_fires inv then 45 else 0) + (if vendor_fires inv then 30 else 0),
       risk_level_of
        ((if amount_fires inv then 45 else 0) + (if vendor_fires inv then 30 else 0)),
       (if amount_fires inv then [⟨"High Invoice Amount", 45⟩] else []) ++
        (if vendor_fires inv then [⟨"Vendor Type", 30⟩] else [])) ∧
    ∀ f ∈ (calculate_risk inv).2.2, f.feature_name ≠ "Weekend Transaction" := by
  have hw : weekend_fires inv.invoice_date = false := by
    obtain h | ⟨t, h⟩ := h <;> rw [h] <;> rfl
  cases hA : amount_fires inv <;> cases hV : vendor_fires inv <;>
    simp only [calculate_risk, hw, hA, hV] <;> refine ⟨by simp, ?_⟩ <;> decide

/-- Witness for C10 at a concrete input with the date field absent. -/
theorem calculate_risk_no_date_witness :
    calculate_risk ⟨some 15000, some "Acme Shop", .absent⟩ =
      ((if amount_fires ⟨some 15000, some "Acme Shop", .absent⟩ then 45 else 0) +
        (if vendor_fires ⟨some 15000, some "Acme Shop", .absent⟩ then 30 else 0),
       risk_level_of
        ((if amount_fires ⟨some 15000, some "Acme Shop", .absent⟩ then 45 else 0) +
          (if vendor_fires ⟨some 15000, some "Acme Shop", .absent⟩ then 30 else 0)),
       (if amount_fires ⟨some 15000, some "Acme Shop", .absent⟩
          then [⟨"High Invoice Amount", 45⟩] else []) ++
        (if vendor_fires ⟨some 15000, some "Acme Shop", .absent⟩
          then [⟨"Vendor Type", 30⟩] else [])) ∧
    ∀ f ∈ (calculate_risk ⟨some 15000, some "Acme Shop", .absent⟩).2.2,
      f.feature_name ≠ "Weekend Transaction" :=
  calculate_risk_no_date ⟨some 15000, some "Acme Shop", .absent⟩ (Or.inl rfl)

/-- **C3.** Date normalization tries ISO, day-month-year, month-day-year and
spelled-month in that priority order (the structure of
`normalize_invoice_date`), and the four renderings `"2024-03-15"`,
`"15-03-2024"`, `"03-15-2024"` and `"Mar 15, 2024"` all normalize to the
same calendar date, 15 March 2024. -/
theorem normalize_date_roundtrip :
    normalize_invoice_date "2024-03-15" = some ⟨2024, 3, 15⟩ ∧
    normalize_invoice_date "15-03-2024" = some ⟨2024, 3, 15⟩ ∧
    normalize_invoice_date "03-15-2024" = some ⟨2024, 3, 15⟩ ∧
    normalize_invoice_date "Mar 15, 2024" = some ⟨2024, 3, 15⟩ := by
  refine ⟨?_, ?_, ?_, ?_⟩ <;> decide

/-- **C8 counterexample.** On a document whose pages yield only whitespace,
the raised error is not the bare `EmptyDocument` message: the inner raise at
line 22 is caught by its own enclosing `except` and re-wrapped with the
"Could not process PDF file stream" prefix. -/
theorem ingest_empty_doc_wrapped_cex :
    ingest_extract_step (.ok [some " ", none]) =
      .error ("Could not process PDF file stream: " ++ emptyDocMessage) ∧
    "Could not process PDF file stream: " ++ emptyDocMessage ≠ emptyDocMessage := by
  refine ⟨rfl, by decide⟩

/-- **C8 (amended).** When the text extracted from all pages is empty or
whitespace-only, `ingest_invoice_pdf` fails — never succeeds — with an
`InvoiceValidationError` whose message is the stream-processing wrapper
around the empty-document message. -/
theorem ingest_empty_doc_fails (pages : List (Option String))
    (h : pyStrip (extractRawText pages).toList = []) :
    ingest_extract_step (.ok pages) =
      .error ("Could not process PDF file stream: " ++ emptyDocMessage) := by
  simp [ingest_extract_step, String.toList] at h ⊢
  simp [h]

/-- Witness for the amended C8 at a concrete whitespace-only document. -/
theorem ingest_empty_doc_fails_witness :
    pyStrip (extractRawText [some " ", none, some "\n\t"]).toList = [] ∧
    ingest_extract_step (.ok [some " ", none, some "\n\t"]) =
      .error ("Could not process PDF file stream: " ++ emptyDocMessage) :=
  ⟨by decide, ingest_empty_doc_fails [some " ", none, some "\n\t"] (by decide)⟩

/-! ### Helper lemmas about the store embedding -/

open List

theorem insertSorted_perm (le : InvoiceRow → InvoiceRow → Bool) (x : InvoiceRow) :
    ∀ l : List InvoiceRow, insertSorted le x l ~ x :: l
  | [] => .refl _
  | y :: ys => by
    unfold insertSorted
    split
    · exact .refl _
    · exact ((insertSorted_perm le x ys).cons y).trans (List.Perm.swap x y ys)

theorem sortRows_perm (le : InvoiceRow → InvoiceRow → Bool) :
    ∀ l : List InvoiceRow, sortRows le l ~ l
  | [] => .refl _
  | x :: xs => (insertSorted_perm le x (sortRows le xs)).trans ((sortRows_perm le xs).cons x)

/-- In a duplicate-free id list, filtering for one contained id yields
exactly that id. -/
theorem filter_beq_of_nodup {l : List Int} {a : Int} (h : l.Nodup) (ha : a ∈ l) :
    l.filter (fun j => j == a) = [a] := by
  have hf := List.filter_beq l a
  rw [List.count_eq_one_of_mem h ha] at hf
  simpa using hf

/-- A join whose right side holds each invoice's id exactly once reproduces
the left side. -/
theorem flatMap_matched (sub : List Int) :
    ∀ l : List InvoiceRow, (∀ i ∈ l, sub.filter (fun j => j == i.id) = [i.id]) →
      (l.flatMap fun i => (sub.filter (fun j => j == i.id)).map fun _ => i) = l
  | [], _ => rfl
  | a :: as, h => by
    rw [List.flatMap_cons, h a (List.mem_cons_self a as),
        flatMap_matched sub as fun i hi => h i (List.mem_cons_of_mem a hi)]
    rfl

/-- The distinct-subquery join leaves the invoice table unchanged: the
subquery is duplicate-free by construction, so every row matches exactly once. -/
theorem join_distinct_eq (l : List InvoiceRow) : join_distinct l = l :=
  flatMap_matched _ l fun _ hi =>
    filter_beq_of_nodup (List.nodup_dedup _) (List.mem_dedup.mpr (List.mem_map_of_mem _ hi))

theorem tier_filter_clause_eq (risk_level : Option String) (rows : List InvoiceRow) :
    tier_filter_clause risk_level rows = rows.filter (passes_filter risk_level) := by
  cases risk_level with
  | none => exact (List.filter_eq_self.mpr fun a _ => rfl).symm
  | some lv =>
    by_cases hlv : lv = ""
    · subst hlv
      simp only [tier_filter_clause, if_pos rfl]
      exact (List.filter_eq_self.mpr fun a _ => rfl).symm
    · simp only [tier_filter_clause, if_neg hlv]
      congr 1
      funext i
      simp [passes_filter, hlv]

theorem date_sort_clause_perm (sort_by_date : Option String) (rows : List InvoiceRow) :
    date_sort_clause sort_by_date rows ~ rows := by
  cases sort_by_date with
  | none => exact .refl _
  | some sd =>
    simp only [date_sort_clause]
    split
    · exact .refl _
    · split
      · exact sortRows_perm _ _
      · exact sortRows_perm _ _

/-- `get_all_invoices` is a permutation of the tier-filtered invoice table. -/
theorem get_all_invoices_perm (db : DBState) (risk_level sort_by_date : Option String) :
    get_all_invoices db risk_level sort_by_date ~
      db.invoices.filter (passes_filter risk_level) := by
  unfold get_all_invoices
  rw [join_distinct_eq, tier_filter_clause_eq]
  exact date_sort_clause_perm _ _

/-- **C5.** For every store state and every tier-filter/sort combination,
`get_all_invoices` returns each invoice exactly once, however many risk
factors it owns: the result's ids are duplicate-free, the result does not
depend on the risk-factor table at all, and each stored invoice appears with
count 1 when it passes the tier filter and count 0 otherwise.  (Assumes the
primary-key invariant: stored invoice ids are pairwise distinct.) -/
theorem get_all_invoices_unique (db : DBState) (risk_level sort_by_date : Option String)
    (hpk : (db.invoices.map InvoiceRow.id).Nodup) :
    ((get_all_invoices db risk_level sort_by_date).map InvoiceRow.id).Nodup ∧
    (∀ rfs : List RiskFactorRow,
      get_all_invoices ⟨db.invoices, rfs⟩ risk_level sort_by_date =
        get_all_invoices db risk_level sort_by_date) ∧
    (∀ inv ∈ db.invoices,
      (get_all_invoices db risk_level sort_by_date).count inv =
        if passes_filter risk_level inv then 1 else 0) := by
  have hperm := get_all_invoices_perm db risk_level sort_by_date
  have hinv_nodup : db.invoices.Nodup := List.Nodup.of_map _ hpk
  refine ⟨?_, fun rfs => rfl, ?_⟩
  · have hsub : ((db.invoices.filter (passes_filter risk_level)).map InvoiceRow.id).Nodup :=
      ((List.filter_sublist _).map InvoiceRow.id).nodup hpk
    exact (hperm.map InvoiceRow.id).nodup_iff.mpr hsub
  · intro inv hinv
    rw [hperm.count_eq]
    by_cases hp : passes_filter risk_level inv = true
    · rw [if_pos hp]
      exact List.count_eq_one_of_mem (hinv_nodup.filter _) (List.mem_filter.mpr ⟨hinv, hp⟩)
    · rw [if_neg hp]
      exact List.count_eq_zero.mpr fun hmem => hp (List.mem_filter.mp hmem).2

/-- Witness for C5 on a concrete two-invoice store with three risk factors
on the first invoice, filtering tier High with a descending date sort. -/
theorem get_all_invoices_unique_witness :
    (sampleDB.invoices.map InvoiceRow.id).Nodup ∧
    (((get_all_invoices sampleDB (some "High") (some "desc")).map InvoiceRow.id).Nodup ∧
     (∀ rfs : List RiskFactorRow,
       get_all_invoices ⟨sampleDB.invoices, rfs⟩ (some "High") (some "desc") =
         get_all_invoices sampleDB (some "High") (some "desc")) ∧
     (∀ inv ∈ sampleDB.invoices,
       (get_all_invoices sampleDB (some "High") (some "desc")).count inv =
         if passes_filter (some "High") inv then 1 else 0)) :=
  ⟨by decide, get_all_invoices_unique sampleDB (some "High") (some "desc") (by decide)⟩

/-- **C4.** `add_invoice_with_risk_factors` creates the invoice row and all
its risk-factor rows as one atomic unit: when the commit fails, the original
error is re-raised unchanged and the session is exactly as before (no
partial invoice, no orphaned risk factor); when it succeeds, invoice and
factors become visible in one step. -/
theorem add_invoice_atomic (s : Session) (invoice_data : InvoiceRow)
    (risk_factors_data : List XaiFactor) (e : String) (hclean : s.pending = []) :
    (add_invoice_with_risk_factors s invoice_data risk_factors_data (some e)).1 =
      .error e ∧
    (add_invoice_with_risk_factors s invoice_data risk_factors_data (some e)).2 = s ∧
    (add_invoice_with_risk_factors s invoice_data risk_factors_data none).2 =
      ⟨applyAdd s.committed ⟨invoice_data, risk_factors_data⟩, []⟩ := by
  obtain ⟨c, p⟩ := s
  subst hclean
  exact ⟨rfl, rfl, rfl⟩

/-- Witness for C4: a simulated failure mid-write on an empty store leaves
zero rows in both tables, and the error surfaces unchanged. -/
theorem add_invoice_atomic_witness :
    (Session.pending ⟨⟨[], []⟩, []⟩ = []) ∧
    ((add_invoice_with_risk_factors ⟨⟨[], []⟩, []⟩ sampleInvoiceA
        [⟨"High Invoice Amount", 45⟩] (some "simulated write failure")).1 =
      .error "simulated write failure" ∧
     (add_invoice_with_risk_factors ⟨⟨[], []⟩, []⟩ sampleInvoiceA
        [⟨"High Invoice Amount", 45⟩] (some "simulated write failure")).2 =
      (⟨⟨[], []⟩, []⟩ : Session) ∧
     (add_invoice_with_risk_factors ⟨⟨[], []⟩, []⟩ sampleInvoiceA
        [⟨"High Invoice Amount", 45⟩] none).2 =
      ⟨applyAdd (⟨[], []⟩ : DBState) ⟨sampleInvoiceA, [⟨"High Invoice Amount", 45⟩]⟩, []⟩) :=
  ⟨rfl, add_invoice_atomic ⟨⟨[], []⟩, []⟩ sampleInvoiceA
    [⟨"High Invoice Amount", 45⟩] "simulated write failure" rfl⟩

/-- **C6 counterexample.** With a stored invoice whose primary key is 0,
passing that id as the exclusion argument does NOT exclude it:
`if current_invoice_id:` treats the id 0 as falsy and skips the exclusion
filter, so the excluded invoice's amount (100) enters both aggregates
instead of the claimed (0, 0) for a vendor with no other history. -/
theorem get_vendor_statistics_zero_id_cex :
    get_vendor_statistics vendorDB0 "Globex Services" (some 0) = (100, 100) ∧
    ((100 : ℚ), (100 : ℚ)) ≠ ((0 : ℚ), (0 : ℚ)) := by
  refine ⟨?_, by norm_num⟩
  show ((sqlAvg [100]).getD 0, (sqlMax [100]).getD 0) = (100, 100)
  norm_num [sqlAvg, sqlMax]

/-- **C6 (amended).** For every *nonzero* exclusion id, `get_vendor_statistics`
aggregates exactly over the vendor's invoices with the excluded row removed
(so its amount enters neither the mean nor the max), and returns (0, 0) when
the vendor has no matching history. -/
theorem get_vendor_statistics_excludes (db : DBState) (vendor_name : String) (cid : Int)
    (h : cid ≠ 0) :
    get_vendor_statistics db vendor_name (some cid) =
      get_vendor_statistics ⟨db.invoices.filter (fun i => i.id != cid), db.risk_factors⟩
        vendor_name none ∧
    (db.invoices.filter (fun i => i.vendor_name == vendor_name && i.id != cid) = [] →
      get_vendor_statistics db vendor_name (some cid) = (0, 0)) := by
  have hswap :
      (db.invoices.filter (fun i => i.vendor_name == vendor_name)).filter
          (fun i => i.id != cid) =
        (db.invoices.filter (fun i => i.id != cid)).filter
          (fun i => i.vendor_name == vendor_name) := by
    rw [List.filter_filter, List.filter_filter]
    congr 1
    funext i
    exact Bool.and_comm _ _
  constructor
  · simp only [get_vendor_statistics, if_neg h]
    rw [hswap]
  · intro hempty
    have hnil :
        (db.invoices.filter (fun i => i.vendor_name == vendor_name)).filter
            (fun i => i.id != cid) = [] := by
      rw [List.filter_filter]
      rw [show (fun (a : InvoiceRow) => (a.id != cid) && (a.vendor_name == vendor_name)) =
            (fun (a : InvoiceRow) => (a.vendor_name == vendor_name) && (a.id != cid)) from
          funext fun a => Bool.and_comm _ _]
      exact hempty
    simp only [get_vendor_statistics, if_neg h, hnil]
    rfl

/-- Witness for the amended C6: excluding invoice 2 leaves only invoice 1's
amount in the vendor aggregates. -/
theorem get_vendor_statistics_excludes_witness :
    ((2 : Int) ≠ 0) ∧
    (get_vendor_statistics sampleDB "Acme Consulting" (some 2) =
      get_vendor_statistics
        ⟨sampleDB.invoices.filter (fun i => i.id != 2), sampleDB.risk_factors⟩
        "Acme Consulting" none ∧
     (sampleDB.invoices.filter (fun i => i.vendor_name == "Acme Consulting" && i.id != 2) = [] →
       get_vendor_statistics sampleDB "Acme Consulting" (some 2) = (0, 0))) :=
  ⟨by decide, get_vendor_statistics_excludes sampleDB "Acme Consulting" 2 (by decide)⟩

/-- **C7.** `generate_narrative` never propagates an exception: on a
vendor-statistics failure, a model failure, or a model response that is
empty after sanitization, it returns the fixed fallback string, which
embeds the invoice's identifier and asks for manual review. -/
theorem generate_narrative_never_raises (invoice : OrmInvoice)
    (vendor_stats_result : Except String VendorStats) (model_result : Except String String)
    (h : (∃ e, vendor_stats_result = .error e) ∨ (∃ e, model_result = .error e) ∨
         (∃ c, model_result = .ok c ∧ clean_narrative_text c = "")) :
    generate_narrative invoice vendor_stats_result model_result = fallback_message invoice ∧
    fallback_message invoice =
      "Narrative generation failed due to an internal error. Please review invoice "
        ++ toString invoice.id ++ " manually." := by
  refine ⟨?_, rfl⟩
  obtain ⟨e, rfl⟩ | ⟨e, rfl⟩ | ⟨c, rfl, hc⟩ := h
  · rfl
  · cases vendor_stats_result with
    | error _ => rfl
    | ok _ => rfl
  · cases vendor_stats_result with
    | error _ => rfl
    | ok vs =>
      simp only [generate_narrative, hc]
      rfl

/-- Witness for C7: a simulated vendor-statistics failure yields the
fallback string for invoice 1. -/
theorem generate_narrative_never_raises_witness :
    ((∃ e, (Except.error "database unavailable" : Except String VendorStats) = .error e) ∨
     (∃ e, (Except.ok "some text" : Except String String) = .error e) ∨
     (∃ c, (Except.ok "some text" : Except String String) = .ok c ∧
        clean_narrative_text c = "")) ∧
    (generate_narrative sampleOrmInvoice (.error "database unavailable") (.ok "some text") =
      fallback_message sampleOrmInvoice ∧
     fallback_message sampleOrmInvoice =
      "Narrative generation failed due to an internal error. Please review invoice "
        ++ toString sampleOrmInvoice.id ++ " manually.") :=
  ⟨Or.inl ⟨"database unavailable", rfl⟩,
   generate_narrative_never_raises sampleOrmInvoice (.error "database unavailable")
     (.ok "some text") (Or.inl ⟨"database unavailable", rfl⟩)⟩

end RevLeak
